import Mathlib

/-!
Shallow embedding of the waybar-pomodoro timer (src/src/main.rs).

Wall-clock instants (`std::time::Instant`) are modelled as natural numbers of
seconds; `Instant::duration_since` and `Instant::elapsed` saturate at zero,
which truncated natural subtraction models exactly.  Every operation that
reads the clock takes the current instant `now : Nat` as an explicit argument.
`send_notification` is modelled by returning the list of notification events
fired during the call.
-/

/-- Duration of a focus segment in seconds (25 minutes). -/
def POMODORO_DURATION : Nat := 25 * 60

/-- Duration of a short break in seconds (5 minutes). -/
def SHORT_BREAK_DURATION : Nat := 5 * 60

/-- Duration of a long break in seconds (30 minutes). -/
def LONG_BREAK_DURATION : Nat := 30 * 60

/-- Number of pomodoros before a long break (per the source constant). -/
def POMODOROS_PER_LONG_BREAK : Nat := 4

/-- Kind of break to take, mirroring `enum BreakType` in the source. -/
inductive BreakType where
  | Short
  | Long
deriving DecidableEq, Repr

/-- Notification events, mirroring `enum PomodoroEvent` in dunstify.rs. -/
inductive PomodoroEvent where
  | Pomodoro
  | ShortBreak
  | LongBreak
  | Error
deriving DecidableEq, Repr

/-- The timer state, mirroring `struct Pomodoro` in main.rs. -/
structure Pomodoro where
  start_time : Option Nat
  end_time : Option Nat
  total_time : Nat
  is_running : Bool
  elapsed_time : Nat
  pomodoros_completed : Nat
deriving DecidableEq, Repr

namespace Pomodoro

/-- Model of `Pomodoro::new`: the fresh timer state. -/
def new : Pomodoro :=
  { start_time := none
    end_time := none
    total_time := POMODORO_DURATION
    is_running := false
    elapsed_time := 0
    pomodoros_completed := 0 }

/-- Model of `Pomodoro::start` at instant `now`: no-op if already running; on a first
start records `start_time = now` and `end_time = now + total_time`; on a
resume shifts the recorded window so the same remaining budget is honoured. -/
def start (now : Nat) (p : Pomodoro) : Pomodoro :=
  if p.is_running then p
  else
    match p.start_time with
    | none =>
        { p with start_time := some now
                 end_time := some (now + p.total_time)
                 is_running := true }
    | some st =>
        { p with end_time := some (now + (p.end_time.getD 0 - st))
                 start_time := some now
                 is_running := true }

/-- Model of `Pomodoro::pause` at instant `now`: no-op if not running; otherwise
commits the current run segment into `elapsed_time` and clears the running
flag.  The source keeps `start_time` untouched. -/
def pause (now : Nat) (p : Pomodoro) : Pomodoro :=
  if p.is_running then
    { p with elapsed_time := p.elapsed_time + (now - p.start_time.getD 0)
             is_running := false }
  else p

/-- Model of `Pomodoro::setup_timer`: resets the timer for a new phase of the given
duration. -/
def setup_timer (break_duration : Nat) (p : Pomodoro) : Pomodoro :=
  { p with total_time := break_duration
           elapsed_time := 0
           is_running := false
           start_time := none
           end_time := none }

/-- The live elapsed time computed at the top of `Pomodoro::current_pomodoro`:
`elapsed_time` plus, when running, the whole seconds since `start_time`. -/
def get_elapsed_time (now : Nat) (p : Pomodoro) : Nat :=
  if p.is_running then p.elapsed_time + (now - p.start_time.getD 0)
  else p.elapsed_time

/-- The `match self.pomodoros_completed` of `current_pomodoro`: the duration
and kind of the break that would follow the current focus segment. -/
def get_total_time_and_break_type (p : Pomodoro) : Nat × BreakType :=
  if p.pomodoros_completed = POMODOROS_PER_LONG_BREAK then
    (LONG_BREAK_DURATION, BreakType.Long)
  else
    (SHORT_BREAK_DURATION, BreakType.Short)

end Pomodoro

/-- Model of the format field `:02` of `format!`: decimal, zero-padded to width two. -/
def pad2 (n : Nat) : String :=
  if n < 10 then "0" ++ toString n else toString n

/-- Model of the `format!` template `MM:SS` applied to `secs / 60, secs % 60`. -/
def fmtMMSS (secs : Nat) : String :=
  pad2 (secs / 60) ++ ":" ++ pad2 (secs % 60)

/-- The serialized `json!` status object of `current_pomodoro`: serde_json
renders the two keys in this (alphabetical) order with no spaces. -/
def statusJson (elapsed text : String) : String :=
  "\x7b\"elapsed_time\":\"" ++ elapsed ++ "\",\"text\":\"" ++ text ++ "\"\x7d"

namespace Pomodoro

/-- Model of `Pomodoro::current_pomodoro` at instant `now`: returns the printed status
string, the successor state, and the list of notifications fired. -/
def current_pomodoro (now : Nat) (p : Pomodoro) : String × Pomodoro × List PomodoroEvent :=
  let elapsed_time := get_elapsed_time now p
  let tb := get_total_time_and_break_type p
  if p.total_time < elapsed_time then
    if p.total_time = LONG_BREAK_DURATION ∨ p.total_time = SHORT_BREAK_DURATION then
      if p.is_running then
        let p1 := setup_timer POMODORO_DURATION p
        (statusJson (fmtMMSS 0) (fmtMMSS p1.total_time), p1, [PomodoroEvent.Pomodoro])
      else
        (statusJson (fmtMMSS 0) (fmtMMSS p.total_time), p, [])
    else
      match tb.2 with
      | BreakType.Long =>
          let p1 := setup_timer LONG_BREAK_DURATION { p with pomodoros_completed := 0 }
          (statusJson (fmtMMSS 0) (fmtMMSS p1.total_time), p1, [PomodoroEvent.LongBreak])
      | BreakType.Short =>
          let p1 := setup_timer SHORT_BREAK_DURATION
            { p with pomodoros_completed := p.pomodoros_completed + 1 }
          (statusJson (fmtMMSS 0) (fmtMMSS p1.total_time), p1, [PomodoroEvent.ShortBreak])
  else
    (statusJson (fmtMMSS elapsed_time) (fmtMMSS (p.total_time - elapsed_time)), p, [])

/-- The `toggle` arm of the command loop in `main`: pause when running,
otherwise start. -/
def toggle (now : Nat) (p : Pomodoro) : Pomodoro :=
  if p.is_running then pause now p else start now p

end Pomodoro

/-- The flat persisted record (`pomodoro_state.json`): every field is
optional because `load` tolerates missing keys. -/
structure StateRecord where
  start_time : Option Nat
  end_time : Option Nat
  total_time : Option Nat
  is_running : Option Bool
  elapsed_time : Option Nat
  pomodoros_completed : Option Nat
deriving DecidableEq, Repr

/-- The shutdown save in `main` (and `Pomodoro::save_state`): instants are
stored relative to `now` (`start_time.elapsed()` and
`end_time.duration_since(now)`, both saturating). -/
def save_state (now : Nat) (p : Pomodoro) : StateRecord :=
  { start_time := p.start_time.map (fun t => now - t)
    end_time := p.end_time.map (fun t => t - now)
    total_time := some p.total_time
    is_running := some p.is_running
    elapsed_time := some p.elapsed_time
    pomodoros_completed := some p.pomodoros_completed }

/-- The startup load in `main` (and `Pomodoro::load_pomodoro_state`):
relative seconds are re-anchored to the current `now`; missing fields fall
back to the fresh defaults. -/
def load_pomodoro_state (now : Nat) (r : StateRecord) : Pomodoro :=
  { start_time := r.start_time.map (fun secs => now - secs)
    end_time := r.end_time.map (fun secs => now + secs)
    total_time := r.total_time.getD POMODORO_DURATION
    is_running := r.is_running.getD false
    elapsed_time := r.elapsed_time.getD 0
    pomodoros_completed := r.pomodoros_completed.getD 0 }

/-- Model of the `read_command` normalisation in `main` (trim, then lowercase),
modelled on the underlying character list: strip leading and trailing
whitespace, then lowercase each character (the ASCII case mapping, which
agrees with Rust on the command alphabet). -/
def normalizeCommand (w : String) : String :=
  String.mk
    ((((w.data.dropWhile Char.isWhitespace).reverse.dropWhile Char.isWhitespace).reverse).map
      Char.toLower)

/-- One command dispatch of the timer-thread loop in `main`: the resulting
state and whether the loop continues (`stop` breaks out before the status
print; unrecognized words fall through the `_` arm untouched). -/
def applyCommand (now : Nat) (cmd : String) (p : Pomodoro) : Pomodoro × Bool :=
  if cmd = "start" then (Pomodoro.start now p, true)
  else if cmd = "pause" then (Pomodoro.pause now p, true)
  else if cmd = "toggle" then (Pomodoro.toggle now p, true)
  else if cmd = "stop" then (p, false)
  else (p, true)

/-- The timer-thread loop of `main`, driven by a timestamped trace of
(already normalised) command reads: each tick dispatches one command and, if
the loop survives, prints one status line; `stop` breaks immediately. -/
def timerLoop : Pomodoro → List (Nat × String) → Pomodoro × List String
  | p, [] => (p, [])
  | p, (t, cmd) :: rest =>
      let pc := applyCommand t cmd p
      if pc.2 then
        let st := Pomodoro.current_pomodoro t pc.1
        let tail := timerLoop st.2.1 rest
        (tail.1, st.1 :: tail.2)
      else
        (pc.1, [])

/-- Test-scenario helper: start a fresh focus phase at instant `t` and let a
status call at `t + 1501` drive it over the 1500-second boundary. -/
def completeFocus (t : Nat) (p : Pomodoro) : Pomodoro :=
  (Pomodoro.current_pomodoro (t + 1501) (Pomodoro.start t p)).2.1

/-- Test-scenario helper: start a break phase at instant `t` and let a status
call at `t + 1801` drive it over its boundary (1801 exceeds both break
durations). -/
def completeBreak (t : Nat) (p : Pomodoro) : Pomodoro :=
  (Pomodoro.current_pomodoro (t + 1801) (Pomodoro.start t p)).2.1

/-- Test-scenario helper: one full focus-then-break cycle from a fresh focus
state. -/
def focusCycle (p : Pomodoro) : Pomodoro :=
  completeBreak 0 (completeFocus 0 p)

/-- States reachable from the fresh state by the in-process operations
(start, pause, toggle, setup_timer and the status computation), excluding
`load_pomodoro_state`. -/
inductive Reachable : Pomodoro → Prop
  | new : Reachable Pomodoro.new
  | start (t : Nat) {p : Pomodoro} : Reachable p → Reachable (Pomodoro.start t p)
  | pause (t : Nat) {p : Pomodoro} : Reachable p → Reachable (Pomodoro.pause t p)
  | toggle (t : Nat) {p : Pomodoro} : Reachable p → Reachable (Pomodoro.toggle t p)
  | setup (d : Nat) {p : Pomodoro} : Reachable p → Reachable (Pomodoro.setup_timer d p)
  | status (t : Nat) {p : Pomodoro} :
      Reachable p → Reachable (Pomodoro.current_pomodoro t p).2.1

/-- A directly-constructed overdue short-break state: paused, 350 seconds of
committed elapsed time against a 300-second phase. -/
def overdueBreakState : Pomodoro :=
  { start_time := none
    end_time := none
    total_time := SHORT_BREAK_DURATION
    is_running := false
    elapsed_time := 350
    pomodoros_completed := 2 }

/-- A paused overdue short-break state reached from the fresh state: finish
one focus segment, run the short break 302 seconds, pause it. -/
def pausedBreakState : Pomodoro :=
  Pomodoro.pause 2302
    (Pomodoro.start 2000
      ((Pomodoro.current_pomodoro 1501 (Pomodoro.start 0 Pomodoro.new)).2.1))

/-- A persisted record whose `is_running` flag is set but whose `start_time`
key is absent, as `load_pomodoro_state` accepts. -/
def brokenRecord : StateRecord :=
  { start_time := none
    end_time := none
    total_time := some POMODORO_DURATION
    is_running := some true
    elapsed_time := some 0
    pomodoros_completed := some 0 }

section InvariantLemmas

-- The running-implies-started invariant is preserved by each operation.

lemma start_preserves_inv (now : Nat) (p : Pomodoro)
    (h : p.is_running = true → p.start_time.isSome = true) :
    (Pomodoro.start now p).is_running = true →
      (Pomodoro.start now p).start_time.isSome = true := by
  unfold Pomodoro.start
  by_cases hr : p.is_running
  · simpa [hr] using h
  · cases hst : p.start_time <;> simp [hr, hst]

lemma pause_preserves_inv (now : Nat) (p : Pomodoro)
    (h : p.is_running = true → p.start_time.isSome = true) :
    (Pomodoro.pause now p).is_running = true →
      (Pomodoro.pause now p).start_time.isSome = true := by
  unfold Pomodoro.pause
  by_cases hr : p.is_running <;> simp [hr, h]

lemma toggle_preserves_inv (now : Nat) (p : Pomodoro)
    (h : p.is_running = true → p.start_time.isSome = true) :
    (Pomodoro.toggle now p).is_running = true →
      (Pomodoro.toggle now p).start_time.isSome = true := by
  unfold Pomodoro.toggle
  by_cases hr : p.is_running
  · simpa [hr] using pause_preserves_inv now p h
  · simpa [hr] using start_preserves_inv now p h

lemma setup_timer_preserves_inv (d : Nat) (p : Pomodoro)
    (_h : p.is_running = true → p.start_time.isSome = true) :
    (Pomodoro.setup_timer d p).is_running = true →
      (Pomodoro.setup_timer d p).start_time.isSome = true := by
  simp [Pomodoro.setup_timer]

lemma current_pomodoro_preserves_inv (now : Nat) (p : Pomodoro)
    (h : p.is_running = true → p.start_time.isSome = true) :
    (Pomodoro.current_pomodoro now p).2.1.is_running = true →
      (Pomodoro.current_pomodoro now p).2.1.start_time.isSome = true := by
  unfold Pomodoro.current_pomodoro
  dsimp only
  split_ifs
  · simp [Pomodoro.setup_timer]
  · exact h
  · cases hbt : (Pomodoro.get_total_time_and_break_type p).2 <;>
      simp [hbt, Pomodoro.setup_timer]
  · exact h

-- The invariant holds in every reachable state.
lemma reachable_inv {p : Pomodoro} (h : Reachable p) :
    p.is_running = true → p.start_time.isSome = true := by
  induction h with
  | new => simp [Pomodoro.new]
  | start t _ ih => exact start_preserves_inv t _ ih
  | pause t _ ih => exact pause_preserves_inv t _ ih
  | toggle t _ ih => exact toggle_preserves_inv t _ ih
  | setup d _ ih => exact setup_timer_preserves_inv d _ ih
  | status t _ ih => exact current_pomodoro_preserves_inv t _ ih

end InvariantLemmas

-- Shared analysis of the over-time path of `current_pomodoro` when a
-- transition actually fires (running, or paused in a focus phase).
lemma current_pomodoro_over (now : Nat) (p : Pomodoro)
    (hover : p.total_time < Pomodoro.get_elapsed_time now p)
    (hrun : p.is_running = true ∨
      (p.total_time ≠ SHORT_BREAK_DURATION ∧ p.total_time ≠ LONG_BREAK_DURATION)) :
    (Pomodoro.current_pomodoro now p).2.2.length = 1 ∧
    (Pomodoro.current_pomodoro now p).2.1.elapsed_time = 0 ∧
    (Pomodoro.current_pomodoro now p).2.1.is_running = false ∧
    (Pomodoro.current_pomodoro now p).1 =
      statusJson (fmtMMSS 0) (fmtMMSS (Pomodoro.current_pomodoro now p).2.1.total_time) := by
  unfold Pomodoro.current_pomodoro
  dsimp only
  rcases hrun with hr | ⟨hs, hl⟩
  · by_cases hbreak : p.total_time = LONG_BREAK_DURATION ∨ p.total_time = SHORT_BREAK_DURATION
    · simp [hover, hbreak, hr, Pomodoro.setup_timer]
    · cases hbt : (Pomodoro.get_total_time_and_break_type p).2 <;>
        simp [hover, hbreak, hbt, Pomodoro.setup_timer]
  · have hbreak : ¬ (p.total_time = LONG_BREAK_DURATION ∨ p.total_time = SHORT_BREAK_DURATION) := by
      tauto
    cases hbt : (Pomodoro.get_total_time_and_break_type p).2 <;>
      simp [hover, hbreak, hbt, Pomodoro.setup_timer]

/-- Claim C1 (amended): `current_pomodoro` takes the over-time path exactly
when the live elapsed time exceeds `total_time`.  On that path, whenever the
timer is running or the current phase is a focus phase, exactly one
notification fires, the elapsed time of the new state is reset, and the
display shows a zero elapsed field with the full time of the new phase; but
when the timer is paused in a break phase, no transition and no notification
occur and the display shows a zero elapsed field with the full time of the
unchanged phase.  When the live elapsed time does not exceed `total_time`,
the call reports elapsed = live elapsed and remaining = `total_time` minus
live elapsed, both zero-padded MM:SS, and leaves the state untouched. -/
theorem c1_status_boundary (now : Nat) (p : Pomodoro) :
    (Pomodoro.get_elapsed_time now p ≤ p.total_time →
       Pomodoro.current_pomodoro now p =
         (statusJson (fmtMMSS (Pomodoro.get_elapsed_time now p))
            (fmtMMSS (p.total_time - Pomodoro.get_elapsed_time now p)), p, [])) ∧
    (p.total_time < Pomodoro.get_elapsed_time now p →
       ((p.is_running = true ∨
           (p.total_time ≠ SHORT_BREAK_DURATION ∧ p.total_time ≠ LONG_BREAK_DURATION)) →
          (Pomodoro.current_pomodoro now p).2.2.length = 1 ∧
          (Pomodoro.current_pomodoro now p).2.1.elapsed_time = 0 ∧
          (Pomodoro.current_pomodoro now p).2.1.is_running = false ∧
          (Pomodoro.current_pomodoro now p).1 =
            statusJson (fmtMMSS 0)
              (fmtMMSS (Pomodoro.current_pomodoro now p).2.1.total_time)) ∧
       (p.is_running = false →
          (p.total_time = SHORT_BREAK_DURATION ∨ p.total_time = LONG_BREAK_DURATION) →
          Pomodoro.current_pomodoro now p =
            (statusJson (fmtMMSS 0) (fmtMMSS p.total_time), p, []))) := by
  constructor
  · intro hle
    have hnot : ¬ p.total_time < Pomodoro.get_elapsed_time now p := by omega
    unfold Pomodoro.current_pomodoro
    simp [hnot]
  · intro hover
    constructor
    · intro hrun
      obtain ⟨h1, h2, h3, h4⟩ := current_pomodoro_over now p hover hrun
      exact ⟨h1, h2, h3, h4⟩
    · intro hpaused hbreak
      have hbreak2 : p.total_time = LONG_BREAK_DURATION ∨ p.total_time = SHORT_BREAK_DURATION := by
        tauto
      unfold Pomodoro.current_pomodoro
      simp [hover, hbreak2, hpaused]

/-- Claim C1, witness: instantiation at the fresh state and instant 7, where
no boundary is crossed. -/
theorem c1_witness :
    Pomodoro.current_pomodoro 7 Pomodoro.new =
      (statusJson (fmtMMSS (Pomodoro.get_elapsed_time 7 Pomodoro.new))
         (fmtMMSS (Pomodoro.new.total_time - Pomodoro.get_elapsed_time 7 Pomodoro.new)),
       Pomodoro.new, []) :=
  (c1_status_boundary 7 Pomodoro.new).1 (by decide)

/-- Claim C1, counterexample to the claim as stated: a paused short-break
state whose live elapsed time (350) exceeds `total_time` (300), where
`current_pomodoro` crosses no phase boundary (the state is returned unchanged
and no notification fires) and the output is not the elapsed/remaining
rendering the claim prescribes for the no-boundary case. -/
theorem c1_counterexample :
    overdueBreakState.total_time < Pomodoro.get_elapsed_time 1000 overdueBreakState ∧
    (Pomodoro.current_pomodoro 1000 overdueBreakState).2.1 = overdueBreakState ∧
    (Pomodoro.current_pomodoro 1000 overdueBreakState).2.2 = [] ∧
    (Pomodoro.current_pomodoro 1000 overdueBreakState).1 ≠
      statusJson (fmtMMSS (Pomodoro.get_elapsed_time 1000 overdueBreakState))
        (fmtMMSS (overdueBreakState.total_time -
          Pomodoro.get_elapsed_time 1000 overdueBreakState)) := by
  decide

/-- Claim C2 (code bug witness): starting fresh, after three completed
focus/break cycles the counter is 3; completing the 4th focus segment fires a
ShortBreak notification and leaves the counter at 4 (the claim, the spec and
the source constant `POMODOROS_PER_LONG_BREAK = 4` -- "number of pomodoros
before a long break" -- all say this break should be Long with the counter
reset); only the 5th completed focus segment fires the LongBreak notification
and resets the counter to 0. -/
theorem c2_break_decision_eval :
    (focusCycle (focusCycle (focusCycle Pomodoro.new))).pomodoros_completed = 3 ∧
    (Pomodoro.current_pomodoro 1501
        (Pomodoro.start 0 (focusCycle (focusCycle (focusCycle Pomodoro.new))))).2.2 =
      [PomodoroEvent.ShortBreak] ∧
    (Pomodoro.current_pomodoro 1501
        (Pomodoro.start 0 (focusCycle (focusCycle (focusCycle Pomodoro.new))))).2.1.pomodoros_completed = 4 ∧
    (Pomodoro.current_pomodoro 1501
        (Pomodoro.start 0 (focusCycle (focusCycle (focusCycle (focusCycle Pomodoro.new)))))).2.2 =
      [PomodoroEvent.LongBreak] ∧
    (Pomodoro.current_pomodoro 1501
        (Pomodoro.start 0 (focusCycle (focusCycle (focusCycle (focusCycle Pomodoro.new)))))).2.1.pomodoros_completed = 0 ∧
    (Pomodoro.current_pomodoro 1501
        (Pomodoro.start 0 (focusCycle (focusCycle (focusCycle (focusCycle Pomodoro.new)))))).2.1.total_time =
      LONG_BREAK_DURATION := by
  decide

/-- Claim C3: from the fresh state, immediately after `start()` the status
call prints elapsed 00:00 and remaining 25:00; a single status call after
1501 seconds of running time prints elapsed 00:00 and remaining 05:00,
enters the short-break phase (total 300, elapsed reset, not running), and
fires exactly one ShortBreak notification. -/
theorem c3_fresh_scenario :
    (Pomodoro.current_pomodoro 0 (Pomodoro.start 0 Pomodoro.new)).1 =
      "\x7b\"elapsed_time\":\"00:00\",\"text\":\"25:00\"\x7d" ∧
    (Pomodoro.current_pomodoro 0 (Pomodoro.start 0 Pomodoro.new)).2.2 = [] ∧
    (Pomodoro.current_pomodoro 1501 (Pomodoro.start 0 Pomodoro.new)).1 =
      "\x7b\"elapsed_time\":\"00:00\",\"text\":\"05:00\"\x7d" ∧
    (Pomodoro.current_pomodoro 1501 (Pomodoro.start 0 Pomodoro.new)).2.2 =
      [PomodoroEvent.ShortBreak] ∧
    (Pomodoro.current_pomodoro 1501 (Pomodoro.start 0 Pomodoro.new)).2.1 =
      { start_time := none
        end_time := none
        total_time := SHORT_BREAK_DURATION
        is_running := false
        elapsed_time := 0
        pomodoros_completed := 1 } := by
  decide

/-- Claim C4 (amended): whenever a status call observes live elapsed time
exceeding `total_time` and the timer is running or in the focus phase, that
same call performs the phase transition, so the live
elapsed time (at any later instant while it stays untouched) no longer
exceeds its `total_time`.  For a paused timer in a break phase the excess
persists instead (see the counterexample). -/
theorem c4_excess_resolved (now fut : Nat) (p : Pomodoro)
    (hover : p.total_time < Pomodoro.get_elapsed_time now p)
    (hrun : p.is_running = true ∨
      (p.total_time ≠ SHORT_BREAK_DURATION ∧ p.total_time ≠ LONG_BREAK_DURATION)) :
    Pomodoro.get_elapsed_time fut (Pomodoro.current_pomodoro now p).2.1 ≤
      (Pomodoro.current_pomodoro now p).2.1.total_time := by
  obtain ⟨-, he, hrn, -⟩ := current_pomodoro_over now p hover hrun
  simp [Pomodoro.get_elapsed_time, hrn, he]

/-- Claim C4, witness: completing the first focus segment resolves the
excess, so the short-break successor state is not overdue even much later. -/
theorem c4_witness :
    Pomodoro.get_elapsed_time 9999
        (Pomodoro.current_pomodoro 1501 (Pomodoro.start 0 Pomodoro.new)).2.1 ≤
      (Pomodoro.current_pomodoro 1501 (Pomodoro.start 0 Pomodoro.new)).2.1.total_time :=
  c4_excess_resolved 1501 9999 (Pomodoro.start 0 Pomodoro.new) (by decide) (by decide)

/-- Claim C4, counterexample to the claim as stated: a reachable paused
short-break state whose committed elapsed time (302) exceeds `total_time`
(300); two consecutive status calls both observe the excess and neither
performs a transition, so the excess persists. -/
theorem c4_counterexample :
    Reachable pausedBreakState ∧
    pausedBreakState.total_time < Pomodoro.get_elapsed_time 2400 pausedBreakState ∧
    (Pomodoro.current_pomodoro 2400 pausedBreakState).2.1 = pausedBreakState ∧
    (Pomodoro.current_pomodoro 2400 pausedBreakState).2.2 = [] ∧
    (Pomodoro.current_pomodoro 2400 pausedBreakState).2.1.total_time <
      Pomodoro.get_elapsed_time 2401 (Pomodoro.current_pomodoro 2400 pausedBreakState).2.1 :=
  ⟨Reachable.pause 2302
      (Reachable.start 2000 (Reachable.status 1501 (Reachable.start 0 Reachable.new))),
    by decide, by decide, by decide, by decide⟩

/-- Claim C5 (amended): when a tick of the timer-thread loop reads `stop`,
the loop terminates immediately with the state unchanged -- in particular no
`pause()` is applied -- no further ticks or status prints occur, and the
terminal persistence write records that unchanged state. -/
theorem c5_stop_terminates (p : Pomodoro) (t : Nat) (rest : List (Nat × String)) :
    timerLoop p ((t, "stop") :: rest) = (p, []) ∧
    save_state t (timerLoop p ((t, "stop") :: rest)).1 = save_state t p := by
  constructor <;> rfl

/-- Claim C5, counterexample to the claim as stated: stopping a running
timer leaves it running in the final persisted state, which differs from the
state a final `pause()` would have produced. -/
theorem c5_counterexample :
    (timerLoop (Pomodoro.start 0 Pomodoro.new) [(5, "stop")]).1.is_running = true ∧
    (save_state 5 (timerLoop (Pomodoro.start 0 Pomodoro.new) [(5, "stop")]).1).is_running =
      some true ∧
    (Pomodoro.pause 5 (Pomodoro.start 0 Pomodoro.new)).is_running = false ∧
    (timerLoop (Pomodoro.start 0 Pomodoro.new) [(5, "stop")]).1 ≠
      Pomodoro.pause 5 (Pomodoro.start 0 Pomodoro.new) := by
  decide

/-- Claim C6 (amended): in every reachable timer state, `start_time` is
`Some` whenever `is_running` is true.  The converse direction of the claim
fails: `pause` clears the running flag but keeps `start_time` recorded (the
resume path of `start` reads it), so a paused previously-started timer has
`start_time = Some`. -/
theorem c6_running_implies_started (p : Pomodoro) (h : Reachable p)
    (hr : p.is_running = true) : p.start_time.isSome = true :=
  reachable_inv h hr

/-- Claim C6, witness: toggling the fresh timer starts it, and the running
state indeed has a recorded start instant. -/
theorem c6_witness :
    (Pomodoro.toggle 3 Pomodoro.new).start_time.isSome = true :=
  c6_running_implies_started _ (Reachable.toggle 3 Reachable.new) (by decide)

/-- Claim C6, counterexample to the claim as stated: start then pause the
fresh timer; the resulting reachable state is not running yet keeps
`start_time = some 0`. -/
theorem c6_counterexample :
    Reachable (Pomodoro.pause 5 (Pomodoro.start 0 Pomodoro.new)) ∧
    (Pomodoro.pause 5 (Pomodoro.start 0 Pomodoro.new)).is_running = false ∧
    (Pomodoro.pause 5 (Pomodoro.start 0 Pomodoro.new)).start_time = some 0 :=
  ⟨Reachable.pause 5 (Reachable.start 0 Reachable.new), by decide, by decide⟩

/-- Claim C7 (amended): for the fresh never-started state the initial status
print emits the full status object with elapsed 00:00 and remaining 25:00 (at
any instant), not an object with an empty text field. -/
theorem c7_fresh_print (now : Nat) :
    Pomodoro.current_pomodoro now Pomodoro.new =
      (statusJson "00:00" "25:00", Pomodoro.new, []) := by
  have h0 : Pomodoro.get_elapsed_time now Pomodoro.new = 0 := by
    simp [Pomodoro.get_elapsed_time, Pomodoro.new]
  simp only [Pomodoro.current_pomodoro]
  rw [h0]
  decide

/-- Claim C7, counterexample to the claim as stated: the fresh-state print
is not the object with an empty text field the claim prescribes. -/
theorem c7_counterexample :
    (Pomodoro.current_pomodoro 0 Pomodoro.new).1 ≠ "\x7b\"text\": \"\"\x7d" ∧
    (Pomodoro.current_pomodoro 0 Pomodoro.new).1 = statusJson "00:00" "25:00" := by
  decide

-- The status string never reads `end_time`, so two states differing only in
-- that field print identically.
lemma current_pomodoro_fst_ignores_end (now : Nat) (st e1 e2 : Option Nat)
    (tt : Nat) (r : Bool) (el pc : Nat) :
    (Pomodoro.current_pomodoro now ⟨st, e1, tt, r, el, pc⟩).1 =
    (Pomodoro.current_pomodoro now ⟨st, e2, tt, r, el, pc⟩).1 := by
  unfold Pomodoro.current_pomodoro Pomodoro.get_elapsed_time
    Pomodoro.get_total_time_and_break_type
  dsimp only
  split_ifs <;> rfl

/-- Claim C8: for every timer state, running or paused, reloading the saved
record at the same instant yields a state whose status display string equals
the display of the original state at that instant (the recorded start instant of
a started timer lies in the past, hence the hypothesis). -/
theorem c8_roundtrip (now : Nat) (p : Pomodoro)
    (hs : ∀ t, p.start_time = some t → t ≤ now) :
    (Pomodoro.current_pomodoro now (load_pomodoro_state now (save_state now p))).1 =
    (Pomodoro.current_pomodoro now p).1 := by
  obtain ⟨st, en, tt, r, el, pc⟩ := p
  cases st with
  | none =>
      have hload : load_pomodoro_state now (save_state now ⟨none, en, tt, r, el, pc⟩) =
          ⟨none, (en.map (fun x => x - now)).map (fun secs => now + secs), tt, r, el, pc⟩ := by
        simp [load_pomodoro_state, save_state]
      rw [hload]
      exact current_pomodoro_fst_ignores_end now none _ en tt r el pc
  | some t =>
      have ht : t ≤ now := hs t rfl
      have hload : load_pomodoro_state now (save_state now ⟨some t, en, tt, r, el, pc⟩) =
          ⟨some t, (en.map (fun x => x - now)).map (fun secs => now + secs), tt, r, el, pc⟩ := by
        simp [load_pomodoro_state, save_state, Nat.sub_sub_self ht]
      rw [hload]
      exact current_pomodoro_fst_ignores_end now (some t) _ en tt r el pc

/-- Claim C8, witness: round-trip at instant 10 of a timer started at
instant 3 reproduces the same display string. -/
theorem c8_witness :
    (Pomodoro.current_pomodoro 10
        (load_pomodoro_state 10 (save_state 10 (Pomodoro.start 3 Pomodoro.new)))).1 =
    (Pomodoro.current_pomodoro 10 (Pomodoro.start 3 Pomodoro.new)).1 :=
  c8_roundtrip 10 (Pomodoro.start 3 Pomodoro.new) (by
    intro t ht
    have h3 : (Pomodoro.start 3 Pomodoro.new).start_time = some 3 := rfl
    rw [h3] at ht
    injection ht with h
    omega)

/-- Claim C9: any command word whose trimmed lowercase form is not one of
start, pause, toggle, stop leaves the timer state unchanged, keeps the loop
alive, and the next status output (at any instant) equals the one the
unmodified state would produce. -/
theorem c9_invalid_command (now t : Nat) (p : Pomodoro) (w : String)
    (h : normalizeCommand w ∉ ["start", "pause", "toggle", "stop"]) :
    applyCommand now (normalizeCommand w) p = (p, true) ∧
    Pomodoro.current_pomodoro t (applyCommand now (normalizeCommand w) p).1 =
      Pomodoro.current_pomodoro t p := by
  simp only [List.mem_cons, List.not_mem_nil, or_false, not_or] at h
  obtain ⟨h1, h2, h3, h4⟩ := h
  have happ : applyCommand now (normalizeCommand w) p = (p, true) := by
    simp [applyCommand, h1, h2, h3, h4]
  exact ⟨happ, by rw [happ]⟩

/-- Claim C9, witness: the unrecognized word " FoO " (trimmed and lowercased
to "foo") mutates nothing in the fresh state and keeps the loop alive. -/
theorem c9_witness :
    applyCommand 5 (normalizeCommand " FoO ") Pomodoro.new = (Pomodoro.new, true) ∧
    Pomodoro.current_pomodoro 6 (applyCommand 5 (normalizeCommand " FoO ") Pomodoro.new).1 =
      Pomodoro.current_pomodoro 6 Pomodoro.new :=
  c9_invalid_command 5 6 Pomodoro.new " FoO " (by decide)

/-- Claim C10: every state reachable from `new` through start, pause,
toggle, setup_timer and the status computation satisfies
`is_running → start_time.isSome` (so the `unwrap` calls on `start_time`
never panic there); `load_pomodoro_state` does not preserve this: a record
with `is_running = true` and no `start_time` key loads into a state that
violates it. -/
theorem c10_unwrap_safety :
    (∀ p : Pomodoro, Reachable p → p.is_running = true → p.start_time.isSome = true) ∧
    (load_pomodoro_state 100 brokenRecord).is_running = true ∧
    (load_pomodoro_state 100 brokenRecord).start_time = none :=
  ⟨fun _ h => reachable_inv h, by decide, by decide⟩

/-- Claim C10, witness: starting the fresh timer at instant 2 yields a
reachable running state with a recorded start instant. -/
theorem c10_witness :
    (Pomodoro.start 2 Pomodoro.new).start_time.isSome = true :=
  c10_unwrap_safety.1 _ (Reachable.start 2 Reachable.new) (by decide)
